import Mathlib

/-!
Shallow embedding of the eterna order-execution engine.

Sources embedded here:
- src/src/services/mockDexRouter.ts   (quote selection, swap execution)
- src/unnamed/part_002                (src/utils/helpers.ts: retryWithExponentialBackoff)
- src/src/db/orderRepository.ts       (order store: create / get / updateStatus /
                                       incrementRetryCount / history)
- src/unnamed/part_007                (src/services/orderExecutor.ts: executeOrder)
- src/src/routes/orders.ts            (admission endpoint POST /api/orders/execute)
- src/src/services/orderQueue.ts      (OrderQueue.addOrder, BullMQ job ids)

Numeric amounts (prices, output amounts, slippage) are embedded as rationals;
timestamps are not modelled — the history list order stands for the
`ORDER BY timestamp ASC` order, which coincides with append order because every
append happens strictly later in time than the previous one.
-/

namespace Eterna

/-- Order lifecycle statuses, from the `OrderStatus` enum of src/types used
throughout src (PENDING, ROUTING, BUILDING, SUBMITTED, CONFIRMED, FAILED). -/
inductive OrderStatus where
  | pending
  | routing
  | building
  | submitted
  | confirmed
  | failed
deriving DecidableEq, Repr

/-- Modelled from the spec: the src/types module is absent from src/. The spec
says only "market" is supported and others are rejected at admission; the
repository README names limit and sniper orders as the other order types. -/
inductive OrderType where
  | market
  | limit
  | sniper
deriving DecidableEq, Repr

/-- DEX venues, from the `DexType` enum of src/types used throughout src. -/
inductive DexType where
  | raydium
  | meteora
deriving DecidableEq, Repr

/-- A venue quote (src/types `DexQuote`), as produced by
`MockDexRouter.getRaydiumQuote` / `getMeteorQuote`. -/
structure DexQuote where
  dex : DexType
  price : ℚ
  fee : ℚ
  outputAmount : ℚ
  priceImpact : ℚ
deriving DecidableEq, Repr

/-- Result of a successful swap (src/types `ExecutionResult`), as produced by
`MockDexRouter.executeSwap`. -/
structure ExecutionResult where
  txHash : String
  executedPrice : ℚ
  executedAmount : ℚ
  dex : DexType
deriving DecidableEq, Repr

/-- The routing payload attached to the ROUTING snapshot status event
(src/services/orderExecutor.ts lines 41-50). -/
structure RoutingInfo where
  raydium : DexQuote
  meteora : DexQuote
  selected : DexType
deriving DecidableEq, Repr

/-- A persisted order row (src/types `Order`, columns of the `orders` table in
the schema of src/unnamed/part_004). Timestamps are not modelled. -/
structure Order where
  orderId : String
  type : OrderType
  tokenIn : String
  tokenOut : String
  amountIn : ℚ
  slippage : ℚ
  status : OrderStatus
  txHash : Option String
  executedPrice : Option ℚ
  executedAmount : Option ℚ
  dex : Option DexType
  error : Option String
  retryCount : ℕ
deriving DecidableEq, Repr

/-- A status event (src/types `OrderStatusUpdate`), carrying exactly the
payload fields the code attaches: `OrderRepository.addStatusHistory` persists
order_id, status, timestamp, tx_hash, executed_price, error, dex, routing_data
(src/src/db/orderRepository.ts lines 84-101), and the emitted updates in
src/services/orderExecutor.ts populate the same fields. Note the history
schema has no executed_amount column. -/
structure OrderStatusUpdate where
  orderId : String
  status : OrderStatus
  txHash : Option String
  executedPrice : Option ℚ
  error : Option String
  dex : Option DexType
  routing : Option RoutingInfo
deriving DecidableEq, Repr

/-- A status event with only order id and status, as built by
`OrderExecutor.updateStatus` (src/services/orderExecutor.ts lines 118-129)
and the PENDING event of src/src/routes/orders.ts lines 53-57. -/
def bareUpdate (orderId : String) (status : OrderStatus) : OrderStatusUpdate :=
  { orderId := orderId, status := status, txHash := none, executedPrice := none,
    error := none, dex := none, routing := none }

/-! ## Route selection (src/src/services/mockDexRouter.ts) -/

/-- The selection step of `MockDexRouter.getBestQuote`
(src/src/services/mockDexRouter.ts lines 79-81):
`raydiumQuote.outputAmount > meteoraQuote.outputAmount ? raydiumQuote : meteoraQuote`. -/
def bestQuote (raydiumQuote meteoraQuote : DexQuote) : DexQuote :=
  if meteoraQuote.outputAmount < raydiumQuote.outputAmount then raydiumQuote
  else meteoraQuote

/-! ## Retry policy (src/utils/helpers.ts, in src/unnamed/part_002) -/

/-- One run of `retryWithExponentialBackoff`, shallowly embedded: `results i`
is the outcome of the i-th call of `fn` (0-indexed). Returns the propagated
outcome together with the number of calls made. The loop runs `attempt` from 0
to `maxRetries`; a success returns immediately, and on the attempt with
`attempt == maxRetries` the loop breaks and the last observed error is thrown.
Recursion is on the number of remaining retries `maxRetries - attempt`. -/
def retryFrom {E A : Type} (results : ℕ → Except E A) (attempt : ℕ) :
    ℕ → Except E A × ℕ
  | 0 => (results attempt, 1)
  | remaining + 1 =>
    match results attempt with
    | .ok a => (.ok a, 1)
    | .error _ =>
      let rest := retryFrom results (attempt + 1) remaining
      (rest.1, rest.2 + 1)

/-- `retryWithExponentialBackoff fn maxRetries` (delays dropped: they do not
affect the returned value or the call count). -/
def retryWithExponentialBackoff {E A : Type} (results : ℕ → Except E A)
    (maxRetries : ℕ) : Except E A × ℕ :=
  retryFrom results 0 maxRetries

/-! ## Slippage validation (src/services/orderExecutor.ts lines 54-57) -/

/-- The BUILDING-stage slippage check: computes
`minOutputAmount = quotes.best.outputAmount * (1 - order.slippage)` and
returns `true` exactly when the code would throw
`Slippage tolerance exceeded during quote`, i.e. when
`quotes.best.outputAmount < minOutputAmount`. -/
def slippageCheckFails (bestOutputAmount slippage : ℚ) : Bool :=
  bestOutputAmount < bestOutputAmount * (1 - slippage)

/-! ## Order store (src/src/db/orderRepository.ts, tables of src/unnamed/part_004) -/

/-- Database state: the `orders` table rows and the `order_status_history`
rows in insertion (= timestamp) order. -/
structure Db where
  orders : List Order
  history : List OrderStatusUpdate
deriving DecidableEq, Repr

/-- The empty database. -/
def emptyDb : Db := { orders := [], history := [] }

/-- `OrderRepository.createOrder`: INSERT a new order row. -/
def createOrder (db : Db) (order : Order) : Db :=
  { db with orders := db.orders ++ [order] }

/-- `OrderRepository.getOrder`: SELECT by primary key order_id. -/
def getOrder (db : Db) (orderId : String) : Option Order :=
  db.orders.find? (fun o => o.orderId == orderId)

/-- Apply a row-level update to the row with the given order id. -/
def mapOrder (db : Db) (orderId : String) (f : Order → Order) : Db :=
  { db with orders := db.orders.map (fun o => if o.orderId == orderId then f o else o) }

/-- The optional-field payload of `OrderRepository.updateOrderStatus`
(src/src/db/orderRepository.ts lines 42-48). -/
structure StatusUpdateFields where
  txHash : Option String
  executedPrice : Option ℚ
  executedAmount : Option ℚ
  dex : Option DexType
  error : Option String
deriving DecidableEq, Repr

/-- The empty update payload (the `updates?` argument omitted). -/
def noFields : StatusUpdateFields :=
  { txHash := none, executedPrice := none, executedAmount := none,
    dex := none, error := none }

/-- Row effect of `updateOrderStatus`: `SET status = $1` unconditionally, and
`field = COALESCE(new, field)` for each optional field — the new value when
supplied, the stored value otherwise. -/
def applyStatusUpdate (status : OrderStatus) (u : StatusUpdateFields) (o : Order) : Order :=
  { o with
    status := status
    txHash := if u.txHash.isSome then u.txHash else o.txHash
    executedPrice := if u.executedPrice.isSome then u.executedPrice else o.executedPrice
    executedAmount := if u.executedAmount.isSome then u.executedAmount else o.executedAmount
    dex := if u.dex.isSome then u.dex else o.dex
    error := if u.error.isSome then u.error else o.error }

/-- `OrderRepository.updateOrderStatus` (src/src/db/orderRepository.ts lines 39-70). -/
def updateOrderStatus (db : Db) (orderId : String) (status : OrderStatus)
    (u : StatusUpdateFields) : Db :=
  mapOrder db orderId (applyStatusUpdate status u)

/-- `OrderRepository.incrementRetryCount` (lines 72-82): increments the row's
retry_count and returns the new value. On a missing order id the query returns
no rows and `result.rows[0].retry_count` crashes, modelled as `none`. -/
def incrementRetryCount (db : Db) (orderId : String) : Option (Db × ℕ) :=
  match getOrder db orderId with
  | none => none
  | some o =>
    some (mapOrder db orderId (fun r => { r with retryCount := r.retryCount + 1 }),
          o.retryCount + 1)

/-- `OrderRepository.addStatusHistory` (lines 84-101): INSERT a history row. -/
def addStatusHistory (db : Db) (update : OrderStatusUpdate) : Db :=
  { db with history := db.history ++ [update] }

/-- `OrderRepository.getOrderHistory` (lines 103-121): the order's history rows
in timestamp (= insertion) order. -/
def getOrderHistory (db : Db) (orderId : String) : List OrderStatusUpdate :=
  db.history.filter (fun e => e.orderId == orderId)

/-! ## Order executor (src/services/orderExecutor.ts, in src/unnamed/part_007) -/

/-- Resolved outcomes of the two nondeterministic external calls made by one
`executeOrder` run: the result of the quote fetch
(`retryWithExponentialBackoff(getBestQuote)`, already post-retry) and of the
swap (`retryWithExponentialBackoff(executeSwap)`). A quote success carries the
(raydium, meteora) quote pair; the selected quote is computed by `bestQuote`
as in `MockDexRouter.getBestQuote`. Errors are their message strings. -/
structure RunOracle where
  quotes : Except String (DexQuote × DexQuote)
  swap : Except String ExecutionResult
deriving Repr

/-- How one `executeOrder` run returns to the job layer: normally
(the promise resolves, either after CONFIRMED or after persisting FAILED),
by rethrowing the caught error (line 113, triggering job redelivery), or by
crashing inside the catch block (the `incrementRetryCount` lookup on a
missing order throws). -/
inductive RunOutcome where
  | completed
  | rethrown (message : String)
  | crashed
deriving DecidableEq, Repr

/-- `OrderExecutor.updateStatus` (lines 118-129): persist the bare status,
append it to history, and emit it. Returns the new db and the emitted event. -/
def updateStatus (db : Db) (orderId : String) (status : OrderStatus) :
    Db × OrderStatusUpdate :=
  let update := bareUpdate orderId status
  (addStatusHistory (updateOrderStatus db orderId status noFields) update, update)

/-- The FAILED event emitted at lines 103-108. -/
def failedEvent (orderId : String) (message : String) : OrderStatusUpdate :=
  { bareUpdate orderId .failed with error := some message }

/-- The catch block of `executeOrder` (lines 90-115): increment the retry
count; if it has reached `maxRetries`, persist FAILED with the error message
and emit a FAILED event (not appended to history); otherwise rethrow.
`events` is the list of events emitted before the error was thrown. -/
def catchBranch (maxRetries : ℕ) (db : Db) (orderId : String)
    (events : List OrderStatusUpdate) (message : String) :
    Db × List OrderStatusUpdate × RunOutcome :=
  match incrementRetryCount db orderId with
  | none => (db, events, .crashed)
  | some (db1, retryCount) =>
    if maxRetries ≤ retryCount then
      (updateOrderStatus db1 orderId .failed { noFields with error := some message },
       events ++ [failedEvent orderId message],
       .completed)
    else
      (db1, events, .rethrown message)

/-- The ROUTING snapshot event emitted at lines 41-50: status stays ROUTING,
the payload carries both venue quotes and the selected venue. -/
def snapshotEvent (orderId : String) (raydiumQuote meteoraQuote : DexQuote) :
    OrderStatusUpdate :=
  { bareUpdate orderId .routing with
    routing := some { raydium := raydiumQuote, meteora := meteoraQuote,
                      selected := (bestQuote raydiumQuote meteoraQuote).dex } }

/-- The CONFIRMED event emitted at lines 79-86: it carries the transaction
hash, executed price and venue — not the executed amount. -/
def confirmedEvent (orderId : String) (result : ExecutionResult) :
    OrderStatusUpdate :=
  { bareUpdate orderId .confirmed with
    txHash := some result.txHash,
    executedPrice := some result.executedPrice,
    dex := some result.dex }

/-- Lines 59-87 of `executeOrder`: persist/emit SUBMITTED, run the swap
(outcome `sw` from the oracle), then either persist CONFIRMED with the
execution-result fields and emit the CONFIRMED event, or land in the catch
block with the swap error. `events3` are the events emitted so far. -/
def executeSwapStage (maxRetries : ℕ) (sw : Except String ExecutionResult)
    (db2 : Db) (orderId : String) (events3 : List OrderStatusUpdate) :
    Db × List OrderStatusUpdate × RunOutcome :=
  match sw with
  | .error e =>
    catchBranch maxRetries (updateStatus db2 orderId .submitted).1 orderId
      (events3 ++ [(updateStatus db2 orderId .submitted).2]) e
  | .ok result =>
    (updateOrderStatus (updateStatus db2 orderId .submitted).1 orderId .confirmed
       { txHash := some result.txHash,
         executedPrice := some result.executedPrice,
         executedAmount := some result.executedAmount,
         dex := some result.dex,
         error := none },
     events3 ++ [(updateStatus db2 orderId .submitted).2]
       ++ [confirmedEvent orderId result],
     .completed)

/-- Lines 52-57 of `executeOrder`: persist/emit BUILDING, then the slippage
validation of the selected quote against the order's slippage; on failure the
thrown error lands in the catch block, otherwise the run proceeds to the
SUBMITTED/swap stage. `events2` are the events emitted so far. -/
def buildingStage (maxRetries : ℕ) (sw : Except String ExecutionResult)
    (db1 : Db) (orderId : String) (events2 : List OrderStatusUpdate)
    (best : DexQuote) (slippage : ℚ) :
    Db × List OrderStatusUpdate × RunOutcome :=
  if slippageCheckFails best.outputAmount slippage then
    catchBranch maxRetries (updateStatus db1 orderId .building).1 orderId
      (events2 ++ [(updateStatus db1 orderId .building).2])
      "Slippage tolerance exceeded during quote"
  else
    executeSwapStage maxRetries sw (updateStatus db1 orderId .building).1 orderId
      (events2 ++ [(updateStatus db1 orderId .building).2])

/-- `OrderExecutor.executeOrder` (lines 19-116), one pipeline run: fetch the
order, persist/emit ROUTING, fetch quotes (outcome given by the oracle), emit
the ROUTING routing-snapshot, then run the BUILDING and SUBMITTED/swap stages;
any thrown error lands in `catchBranch`. Returns the final db, the emitted
events in order, and how the run returned. -/
def executeOrder (maxRetries : ℕ) (oracle : RunOracle) (db : Db)
    (orderId : String) : Db × List OrderStatusUpdate × RunOutcome :=
  match getOrder db orderId with
  | none =>
    catchBranch maxRetries db orderId []
      ("Order " ++ orderId ++ " not found")
  | some order =>
    match oracle.quotes with
    | .error e =>
      catchBranch maxRetries (updateStatus db orderId .routing).1 orderId
        [(updateStatus db orderId .routing).2] e
    | .ok (raydiumQuote, meteoraQuote) =>
      buildingStage maxRetries oracle.swap (updateStatus db orderId .routing).1
        orderId
        [(updateStatus db orderId .routing).2,
         snapshotEvent orderId raydiumQuote meteoraQuote]
        (bestQuote raydiumQuote meteoraQuote) order.slippage

/-- The job-level driving loop (BullMQ worker of src/src/services/orderQueue.ts
with `attempts` total deliveries): run `executeOrder` with the next run's
oracle; a run that throws (rethrown or crashed) is redelivered while runs
remain. The oracle list length is the job's `attempts` bound. Returns the
final db, all emitted events in order, and the number of runs executed. -/
def runJob (maxRetries : ℕ) (orderId : String) :
    List RunOracle → Db → Db × List OrderStatusUpdate × ℕ
  | [], db => (db, [], 0)
  | oracle :: rest, db =>
    let r := executeOrder maxRetries oracle db orderId
    match r.2.2 with
    | .completed => (r.1, r.2.1, 1)
    | _ =>
      let next := runJob maxRetries orderId rest r.1
      (next.1, r.2.1 ++ next.2.1, next.2.2 + 1)

/-! ## Job queue (src/src/services/orderQueue.ts) -/

/-- The job store's id set: ids of jobs currently present (waiting, active, or
retained after completion/failure until cleanup). -/
structure QueueState where
  jobs : List String
deriving DecidableEq, Repr

/-- The empty queue. -/
def emptyQueue : QueueState := { jobs := [] }

/-- Modelled from the spec: the durable job store backing the queue (BullMQ,
an external collaborator — §5: "a durable, atomic-append job store ... so two
workers can never claim the same job id simultaneously"). Adding a job under
an explicit job id while a job with that id is still present is a
deduplicating no-op; only absent ids create a job. -/
def queueAdd (q : QueueState) (jobId : String) : QueueState :=
  if jobId ∈ q.jobs then q else { jobs := q.jobs ++ [jobId] }

/-- `OrderQueue.addOrder` (src/src/services/orderQueue.ts lines 70-80): adds
the job with `jobId: orderId`, so the dedup key is the order id itself. -/
def addOrder (q : QueueState) (orderId : String) : QueueState :=
  queueAdd q orderId

/-! ## Admission endpoint (src/src/routes/orders.ts, POST /api/orders/execute) -/

/-- The request body (src/types `CreateOrderRequest`): required type, tokenIn,
tokenOut, amountIn; optional slippage. -/
structure CreateOrderRequest where
  type : OrderType
  tokenIn : String
  tokenOut : String
  amountIn : ℚ
  slippage : Option ℚ
deriving DecidableEq, Repr

/-- The Fastify body schema (src/src/routes/orders.ts lines 18-30):
`amountIn: minimum 0` and, when present, `slippage: minimum 0, maximum 1`
(both bounds inclusive); the type field must be a member of the OrderType
enum, which the typed request guarantees. -/
def schemaValid (r : CreateOrderRequest) : Bool :=
  (0 ≤ r.amountIn) &&
  (match r.slippage with
   | some s => (0 ≤ s) && (s ≤ 1)
   | none => true)

/-- `request.body.slippage || 0.01` (line 48): JavaScript `||` takes the
right operand on any falsy left value, so an omitted slippage and a supplied
slippage of 0 both yield the default 0.01. -/
def effectiveSlippage (slippage : Option ℚ) : ℚ :=
  match slippage with
  | some s => if s = 0 then 1 / 100 else s
  | none => 1 / 100

/-- Outcome of the POST handler: 201 with the new order id, or a 4xx
rejection (schema validation failure or the non-market 400 of lines 34-38). -/
inductive AdmissionResult where
  | accepted (orderId : String)
  | rejected (message : String)
deriving DecidableEq, Repr

/-- The POST /api/orders/execute handler (lines 15-75): schema validation,
the market-only check, then create the PENDING order (with defaulted
slippage), append the PENDING history event, and enqueue the order id.
`newId` stands for the generated uuid. -/
def handleCreateOrder (db : Db) (q : QueueState) (r : CreateOrderRequest)
    (newId : String) : Db × QueueState × AdmissionResult :=
  if ¬ schemaValid r then
    (db, q, .rejected "body does not match schema")
  else if r.type ≠ .market then
    (db, q, .rejected "Only MARKET orders are currently supported")
  else
    let order : Order :=
      { orderId := newId, type := r.type, tokenIn := r.tokenIn,
        tokenOut := r.tokenOut, amountIn := r.amountIn,
        slippage := effectiveSlippage r.slippage, status := .pending,
        txHash := none, executedPrice := none, executedAmount := none,
        dex := none, error := none, retryCount := 0 }
    let db1 := addStatusHistory (createOrder db order) (bareUpdate newId .pending)
    (db1, addOrder q newId, .accepted newId)

/-! ## History replay (spec §3 / §8: StatusEvent round-trip) -/

/-- Replaying one StatusEvent onto an order record: take the event's status,
and each payload field when the event carries it. The history schema carries
no executed_amount, so replay can never set that field. -/
def applyEvent (o : Order) (e : OrderStatusUpdate) : Order :=
  { o with
    status := e.status
    txHash := if e.txHash.isSome then e.txHash else o.txHash
    executedPrice := if e.executedPrice.isSome then e.executedPrice else o.executedPrice
    dex := if e.dex.isSome then e.dex else o.dex
    error := if e.error.isSome then e.error else o.error }

/-- Replaying a full ordered StatusEvent history over a base order record. -/
def replayOrder (base : Order) (events : List OrderStatusUpdate) : Order :=
  events.foldl applyEvent base

/-! ## Status ordering and run-level observations -/

/-- Position of a status along the state machine
PENDING → ROUTING → BUILDING → SUBMITTED → CONFIRMED/FAILED; the two terminal
statuses share the final position. -/
def statusRank : OrderStatus → ℕ
  | .pending => 0
  | .routing => 1
  | .building => 2
  | .submitted => 3
  | .confirmed => 4
  | .failed => 4

/-- Whether a status is terminal. -/
def isTerminalStatus : OrderStatus → Bool
  | .confirmed => true
  | .failed => true
  | _ => false

/-- The statuses of a list of events, in emission order. -/
def eventStatuses (events : List OrderStatusUpdate) : List OrderStatus :=
  events.map OrderStatusUpdate.status

/-- A status sequence that never steps backwards along the state machine. -/
def nonDecreasing (statuses : List OrderStatus) : Prop :=
  statuses.Chain' (fun a b => statusRank a ≤ statusRank b)

/-- The path property of one pipeline run's emitted events and outcome:
statuses never step backwards; a run that returns normally emits exactly one
terminal status and it is the last event; a run that rethrows emits no
terminal status. -/
def statusPathOk (run : List OrderStatusUpdate × RunOutcome) : Prop :=
  nonDecreasing (eventStatuses run.1)
  ∧ (run.2 = .completed →
      (eventStatuses run.1).countP isTerminalStatus = 1
      ∧ ∃ t, (eventStatuses run.1).getLast? = some t ∧ isTerminalStatus t = true)
  ∧ ∀ m, run.2 = .rethrown m → (eventStatuses run.1).countP isTerminalStatus = 0

/-- The error message a run of `executeOrder` throws into its catch block for
an existing order, if any: the quote-fetch error, else the BUILDING slippage
error, else the swap error; `none` when the run confirms. Read off the throw
sites of src/services/orderExecutor.ts lines 30-66. -/
def runErrorMessage (oracle : RunOracle) (order : Order) : Option String :=
  match oracle.quotes with
  | .error e => some e
  | .ok (raydiumQuote, meteoraQuote) =>
    if slippageCheckFails (bestQuote raydiumQuote meteoraQuote).outputAmount
        order.slippage then
      some "Slippage tolerance exceeded during quote"
    else
      match oracle.swap with
      | .error e => some e
      | .ok _ => none

/-! ## Concrete fixtures used by the counterexample and witness theorems -/

/-- A well-formed market order request with defaulted slippage. -/
def sampleRequest : CreateOrderRequest :=
  { type := .market, tokenIn := "SOL", tokenOut := "USDC", amountIn := 100,
    slippage := none }

/-- Database state right after the sample request is admitted as order o1. -/
def sampleDb : Db :=
  (handleCreateOrder emptyDb emptyQueue sampleRequest "o1").1

/-- A concrete Raydium quote. -/
def rQuote : DexQuote :=
  { dex := .raydium, price := 2, fee := 3 / 1000, outputAmount := 5, priceImpact := 0 }

/-- A concrete Meteora quote with the better output. -/
def mQuote : DexQuote :=
  { dex := .meteora, price := 3, fee := 2 / 1000, outputAmount := 7, priceImpact := 0 }

/-- A concrete swap execution result. -/
def sampleResult : ExecutionResult :=
  { txHash := "tx", executedPrice := 3, executedAmount := 7, dex := .meteora }

/-- An oracle under which a run confirms. -/
def okOracle : RunOracle :=
  { quotes := .ok (rQuote, mQuote), swap := .ok sampleResult }

/-- An oracle under which the swap fails after retries. -/
def swapFailOracle : RunOracle :=
  { quotes := .ok (rQuote, mQuote), swap := .error "Slippage tolerance exceeded" }

/-- The order record as created at admission for the sample request. -/
def samplePendingOrder : Order :=
  { orderId := "o1", type := .market, tokenIn := "SOL", tokenOut := "USDC",
    amountIn := 100, slippage := 1 / 100, status := .pending, txHash := none,
    executedPrice := none, executedAmount := none, dex := none, error := none,
    retryCount := 0 }

/-- A Raydium quote whose output ties the Meteora quote below. -/
def tieRaydiumQuote : DexQuote :=
  { dex := .raydium, price := 1, fee := 0, outputAmount := 5, priceImpact := 0 }

/-- A Meteora quote whose output ties the Raydium quote above. -/
def tieMeteoraQuote : DexQuote :=
  { dex := .meteora, price := 1, fee := 0, outputAmount := 5, priceImpact := 0 }

/-- A request supplying an explicit slippage of 0. -/
def zeroSlippageRequest : CreateOrderRequest :=
  { type := .market, tokenIn := "SOL", tokenOut := "USDC", amountIn := 100,
    slippage := some 0 }

/-- A market request with input amount 0. -/
def zeroAmountRequest : CreateOrderRequest :=
  { type := .market, tokenIn := "SOL", tokenOut := "USDC", amountIn := 0,
    slippage := none }

/-- An order row with a stored error message. -/
def erroredOrder : Order :=
  { samplePendingOrder with error := some "boom" }

/-- A one-row database holding `erroredOrder`. -/
def erroredDb : Db :=
  { orders := [erroredOrder], history := [] }

/-- The database after the sample order is admitted and one confirming
pipeline run completes. -/
def confirmedRunDb : Db :=
  (runJob 3 "o1" [okOracle] sampleDb).1

/-- A job execution whose first run fails at the swap and whose redelivered
second run confirms. -/
def retryThenOkRun : Db × List OrderStatusUpdate × ℕ :=
  runJob 3 "o1" [swapFailOracle, okOracle] sampleDb

/-- A job execution whose every run fails at the swap, with four deliveries
available. -/
def alwaysFailRun : Db × List OrderStatusUpdate × ℕ :=
  runJob 3 "o1" [swapFailOracle, swapFailOracle, swapFailOracle, swapFailOracle]
    sampleDb

/-! # Theorems -/

/-! ## Store lemmas shared by the remaining claims -/

theorem applyStatusUpdate_orderId (st : OrderStatus) (u : StatusUpdateFields)
    (o : Order) : (applyStatusUpdate st u o).orderId = o.orderId := rfl

theorem getOrder_addStatusHistory (db : Db) (e : OrderStatusUpdate) (id : String) :
    getOrder (addStatusHistory db e) id = getOrder db id := rfl

theorem getOrder_mapOrder (db : Db) (id id2 : String) (f : Order → Order)
    (hf : ∀ o, (f o).orderId = o.orderId) :
    getOrder (mapOrder db id f) id2 =
      (getOrder db id2).map (fun o => if o.orderId == id then f o else o) := by
  unfold getOrder mapOrder
  rw [List.find?_map]
  have hp : ((fun o : Order => o.orderId == id2)
      ∘ (fun o => if o.orderId == id then f o else o))
      = (fun o : Order => o.orderId == id2) := by
    funext o
    by_cases h : (o.orderId == id) = true
    · simp [Function.comp, h, hf]
    · simp [Function.comp, h]
  rw [hp]

theorem getOrder_mapOrder_self (db : Db) (id : String) (f : Order → Order)
    (o : Order) (hf : ∀ r, (f r).orderId = r.orderId)
    (h : getOrder db id = some o) :
    getOrder (mapOrder db id f) id = some (f o) := by
  have hbeq : (o.orderId == id) = true :=
    @List.find?_some Order (fun r => r.orderId == id) o db.orders h
  rw [getOrder_mapOrder db id id f hf, h]
  have heq : o.orderId = id := by simpa using hbeq
  simp [heq]

theorem incrementRetryCount_spec (db : Db) (id : String) (o : Order)
    (h : getOrder db id = some o) :
    incrementRetryCount db id =
      some (mapOrder db id (fun r => { r with retryCount := r.retryCount + 1 }),
            o.retryCount + 1) := by
  unfold incrementRetryCount
  rw [h]

theorem applyStatusUpdate_noFields (st : OrderStatus) (o : Order) :
    applyStatusUpdate st noFields o = { o with status := st } := rfl

theorem statusRank_le_four (s : OrderStatus) : statusRank s ≤ 4 := by
  cases s <;> simp [statusRank]

theorem eventStatuses_append (a b : List OrderStatusUpdate) :
    eventStatuses (a ++ b) = eventStatuses a ++ eventStatuses b :=
  List.map_append _ a b

theorem nonDecreasing_concat_terminal (l : List OrderStatus) (t : OrderStatus)
    (h : nonDecreasing l) (ht : statusRank t = 4) : nonDecreasing (l ++ [t]) := by
  unfold nonDecreasing at h ⊢
  rw [List.chain'_append]
  refine ⟨h, List.chain'_singleton t, ?_⟩
  intro x hx y hy
  simp at hy
  subst hy
  rw [ht]
  exact statusRank_le_four x

/-- The catch block preserves the run path property: it appends at most one
FAILED event, and only when it returns normally. -/
theorem catchBranch_statusPathOk (mr : ℕ) (db : Db) (id : String)
    (evs : List OrderStatusUpdate) (msg : String)
    (hnd : nonDecreasing (eventStatuses evs))
    (hterm : (eventStatuses evs).countP isTerminalStatus = 0) :
    statusPathOk (catchBranch mr db id evs msg).2 := by
  unfold catchBranch statusPathOk
  cases hinc : incrementRetryCount db id with
  | none =>
    dsimp only
    refine ⟨hnd, fun h => ?_, fun m hm => ?_⟩
    · simp at h
    · exact hterm
  | some p =>
    obtain ⟨db1, rc⟩ := p
    dsimp only
    by_cases hb : mr ≤ rc
    · rw [if_pos hb]
      dsimp only
      refine ⟨?_, fun _ => ⟨?_, ?_⟩, fun m hm => ?_⟩
      · rw [eventStatuses_append,
          show eventStatuses [failedEvent id msg] = [OrderStatus.failed] from rfl]
        exact nonDecreasing_concat_terminal _ _ hnd rfl
      · rw [eventStatuses_append,
          show eventStatuses [failedEvent id msg] = [OrderStatus.failed] from rfl,
          List.countP_append, hterm]
        rfl
      · refine ⟨.failed, ?_, rfl⟩
        rw [eventStatuses_append,
          show eventStatuses [failedEvent id msg] = [OrderStatus.failed] from rfl]
        exact List.getLast?_concat _
      · simp at hm
    · rw [if_neg hb]
      dsimp only
      refine ⟨hnd, fun h => ?_, fun m hm => ?_⟩
      · simp at h
      · exact hterm

theorem executeSwapStage_statusPathOk (mr : ℕ) (sw : Except String ExecutionResult)
    (db2 : Db) (orderId : String) (events3 : List OrderStatusUpdate)
    (hst : eventStatuses events3 = [.routing, .routing, .building]) :
    statusPathOk (executeSwapStage mr sw db2 orderId events3).2 := by
  unfold executeSwapStage
  cases sw with
  | error e =>
    apply catchBranch_statusPathOk
    · unfold nonDecreasing
      rw [eventStatuses_append, hst]
      norm_num [updateStatus, bareUpdate, eventStatuses,
        List.chain'_cons, List.chain'_singleton, statusRank]
    · rw [eventStatuses_append, hst]
      rfl
  | ok result =>
    unfold statusPathOk
    dsimp only
    refine ⟨?_, fun _ => ⟨?_, ?_⟩, fun m hm => ?_⟩
    · unfold nonDecreasing
      rw [eventStatuses_append, eventStatuses_append, hst]
      norm_num [updateStatus, bareUpdate, confirmedEvent, eventStatuses,
        List.chain'_cons, List.chain'_singleton, statusRank]
    · rw [eventStatuses_append, eventStatuses_append, hst]
      rfl
    · refine ⟨.confirmed, ?_, rfl⟩
      rw [eventStatuses_append, eventStatuses_append, hst]
      rfl
    · simp at hm

theorem buildingStage_statusPathOk (mr : ℕ) (sw : Except String ExecutionResult)
    (db1 : Db) (orderId : String) (events2 : List OrderStatusUpdate)
    (best : DexQuote) (slippage : ℚ)
    (hst : eventStatuses events2 = [.routing, .routing]) :
    statusPathOk (buildingStage mr sw db1 orderId events2 best slippage).2 := by
  unfold buildingStage
  by_cases hsf : slippageCheckFails best.outputAmount slippage = true
  · rw [if_pos hsf]
    apply catchBranch_statusPathOk
    · unfold nonDecreasing
      rw [eventStatuses_append, hst]
      norm_num [updateStatus, bareUpdate, eventStatuses,
        List.chain'_cons, List.chain'_singleton, statusRank]
    · rw [eventStatuses_append, hst]
      rfl
  · rw [if_neg hsf]
    apply executeSwapStage_statusPathOk
    rw [eventStatuses_append, hst]
    rfl

/-- C2 amended: within one pipeline run the persisted-and-published status
sequence never steps backwards along
PENDING, ROUTING, BUILDING, SUBMITTED, terminal (the ROUTING snapshot repeats
ROUTING non-strictly); a run that returns normally emits exactly one terminal
status (CONFIRMED or FAILED) and it is the last event, and a run that rethrows
for redelivery emits no terminal status. Across job-level retry re-runs the
pipeline restarts from ROUTING (see the counterexample), so the claim's
cross-run monotonicity does not hold. -/
theorem executeOrder_single_run_status_path (mr : ℕ) (oracle : RunOracle)
    (db : Db) (orderId : String) :
    statusPathOk (executeOrder mr oracle db orderId).2 := by
  unfold executeOrder
  split
  · exact catchBranch_statusPathOk mr db orderId [] _
      (by unfold nonDecreasing; simp [eventStatuses]) rfl
  · split
    · apply catchBranch_statusPathOk
      · unfold nonDecreasing
        simp [eventStatuses, updateStatus, bareUpdate]
      · rfl
    · apply buildingStage_statusPathOk
      rfl

theorem getOrder_updateStatus_self (db : Db) (id : String) (st : OrderStatus)
    (o : Order) (h : getOrder db id = some o) :
    getOrder (updateStatus db id st).1 id = some { o with status := st } := by
  have h1 : getOrder (updateOrderStatus db id st noFields) id
      = some (applyStatusUpdate st noFields o) :=
    getOrder_mapOrder_self db id _ o (fun r => rfl) h
  rw [applyStatusUpdate_noFields] at h1
  exact h1

/-- Full characterization of the catch block (src/services/orderExecutor.ts
lines 90-115) on a database whose row for the order is `ordc`. -/
theorem catchBranch_spec (mr : ℕ) (dbc : Db) (id : String)
    (evs : List OrderStatusUpdate) (msg : String) (ordc : Order)
    (hc : getOrder dbc id = some ordc) :
    ((getOrder (catchBranch mr dbc id evs msg).1 id).map Order.retryCount
        = some (ordc.retryCount + 1))
    ∧ (ordc.retryCount + 1 < mr →
        (catchBranch mr dbc id evs msg).2.2 = .rethrown msg
        ∧ (getOrder (catchBranch mr dbc id evs msg).1 id).map Order.error
            = some ordc.error
        ∧ (getOrder (catchBranch mr dbc id evs msg).1 id).map Order.status
            = some ordc.status
        ∧ (catchBranch mr dbc id evs msg).2.1 = evs)
    ∧ (mr ≤ ordc.retryCount + 1 →
        (catchBranch mr dbc id evs msg).2.2 = .completed
        ∧ (getOrder (catchBranch mr dbc id evs msg).1 id).map Order.status
            = some OrderStatus.failed
        ∧ (getOrder (catchBranch mr dbc id evs msg).1 id).map Order.error
            = some (some msg)
        ∧ (catchBranch mr dbc id evs msg).2.1 = evs ++ [failedEvent id msg]) := by
  unfold catchBranch
  rw [incrementRetryCount_spec dbc id ordc hc]
  have hc1 : getOrder (mapOrder dbc id fun r => { r with retryCount := r.retryCount + 1 }) id
      = some { ordc with retryCount := ordc.retryCount + 1 } :=
    getOrder_mapOrder_self dbc id _ ordc (fun r => rfl) hc
  dsimp only
  by_cases hb : mr ≤ ordc.retryCount + 1
  · rw [if_pos hb]
    have hc2 : getOrder
        (updateOrderStatus (mapOrder dbc id fun r => { r with retryCount := r.retryCount + 1 })
          id OrderStatus.failed { noFields with error := some msg }) id
        = some (applyStatusUpdate OrderStatus.failed { noFields with error := some msg }
            { ordc with retryCount := ordc.retryCount + 1 }) :=
      getOrder_mapOrder_self _ id _ _ (fun r => rfl) hc1
    refine ⟨?_, fun hlt => absurd hb (by omega), fun _ => ⟨rfl, ?_, ?_, rfl⟩⟩
    · rw [hc2]
      rfl
    · rw [hc2]
      rfl
    · rw [hc2]
      rfl
  · rw [if_neg hb]
    refine ⟨?_, fun _ => ⟨rfl, ?_, ?_, rfl⟩, fun hge => absurd hge hb⟩
    · rw [hc1]
      rfl
    · rw [hc1]
      rfl
    · rw [hc1]
      rfl

/-- C3 amended: when a pipeline run for an existing order fails with error e,
the order's retry count is incremented; while the new count is still below
maxRetries the error is rethrown for redelivery, the stored error field is
untouched and the order is not FAILED; once the count reaches maxRetries
(default 3, i.e. after 3 total pipeline runs, not 4) the order is persisted as
FAILED with the error message stored verbatim, a FAILED event is emitted last,
and the run returns normally. -/
theorem executeOrder_catch_retry_policy (mr : ℕ) (oracle : RunOracle) (db : Db)
    (orderId : String) (ord : Order) (e : String)
    (hord : getOrder db orderId = some ord)
    (herr : runErrorMessage oracle ord = some e) :
    ((getOrder (executeOrder mr oracle db orderId).1 orderId).map Order.retryCount
        = some (ord.retryCount + 1))
    ∧ (ord.retryCount + 1 < mr →
        (executeOrder mr oracle db orderId).2.2 = .rethrown e
        ∧ (getOrder (executeOrder mr oracle db orderId).1 orderId).map Order.error
            = some ord.error
        ∧ (getOrder (executeOrder mr oracle db orderId).1 orderId).map Order.status
            ≠ some OrderStatus.failed)
    ∧ (mr ≤ ord.retryCount + 1 →
        (executeOrder mr oracle db orderId).2.2 = .completed
        ∧ (getOrder (executeOrder mr oracle db orderId).1 orderId).map Order.status
            = some OrderStatus.failed
        ∧ (getOrder (executeOrder mr oracle db orderId).1 orderId).map Order.error
            = some (some e)
        ∧ (executeOrder mr oracle db orderId).2.1.getLast?
            = some (failedEvent orderId e)) := by
  unfold executeOrder
  rw [hord]
  unfold runErrorMessage at herr
  cases hq : oracle.quotes with
  | error eq =>
    rw [hq] at herr
    dsimp only at herr ⊢
    obtain rfl : eq = e := by simpa using herr
    have hc : getOrder (updateStatus db orderId .routing).1 orderId
        = some { ord with status := .routing } :=
      getOrder_updateStatus_self db orderId .routing ord hord
    have hs := catchBranch_spec mr _ orderId
      [(updateStatus db orderId .routing).2] eq _ hc
    refine ⟨hs.1, fun hlt => ?_, fun hge => ?_⟩
    · obtain ⟨h1, h2, h3, h4⟩ := hs.2.1 hlt
      refine ⟨h1, h2, ?_⟩
      rw [h3]
      simp
    · obtain ⟨h1, h2, h3, h4⟩ := hs.2.2 hge
      refine ⟨h1, h2, h3, ?_⟩
      rw [h4]
      exact List.getLast?_concat _
  | ok pair =>
    obtain ⟨rq, mq⟩ := pair
    rw [hq] at herr
    dsimp only at herr ⊢
    unfold buildingStage
    by_cases hsf : slippageCheckFails (bestQuote rq mq).outputAmount ord.slippage = true
    · rw [if_pos hsf] at herr ⊢
      obtain rfl : "Slippage tolerance exceeded during quote" = e := by simpa using herr
      have hc1 : getOrder (updateStatus db orderId .routing).1 orderId
          = some { ord with status := .routing } :=
        getOrder_updateStatus_self db orderId .routing ord hord
      have hc2 : getOrder
          (updateStatus (updateStatus db orderId .routing).1 orderId .building).1 orderId
          = some { ord with status := .building } :=
        getOrder_updateStatus_self _ orderId .building { ord with status := .routing } hc1
      have hs := catchBranch_spec mr _ orderId
        ([(updateStatus db orderId .routing).2, snapshotEvent orderId rq mq]
          ++ [(updateStatus (updateStatus db orderId .routing).1 orderId .building).2])
        "Slippage tolerance exceeded during quote" _ hc2
      refine ⟨hs.1, fun hlt => ?_, fun hge => ?_⟩
      · obtain ⟨h1, h2, h3, h4⟩ := hs.2.1 hlt
        refine ⟨h1, h2, ?_⟩
        rw [h3]
        simp
      · obtain ⟨h1, h2, h3, h4⟩ := hs.2.2 hge
        refine ⟨h1, h2, h3, ?_⟩
        rw [h4]
        exact List.getLast?_concat _
    · rw [if_neg hsf] at herr ⊢
      unfold executeSwapStage
      cases hsw : oracle.swap with
      | error esw =>
        rw [hsw] at herr
        dsimp only at herr ⊢
        obtain rfl : esw = e := by simpa using herr
        have hc1 : getOrder (updateStatus db orderId .routing).1 orderId
            = some { ord with status := .routing } :=
          getOrder_updateStatus_self db orderId .routing ord hord
        have hc2 : getOrder
            (updateStatus (updateStatus db orderId .routing).1 orderId .building).1 orderId
            = some { ord with status := .building } :=
          getOrder_updateStatus_self _ orderId .building { ord with status := .routing } hc1
        have hc3 : getOrder
            (updateStatus (updateStatus (updateStatus db orderId .routing).1 orderId
              .building).1 orderId .submitted).1 orderId
            = some { ord with status := .submitted } :=
          getOrder_updateStatus_self _ orderId .submitted { ord with status := .building } hc2
        have hs := catchBranch_spec mr _ orderId
          ([(updateStatus db orderId .routing).2, snapshotEvent orderId rq mq]
            ++ [(updateStatus (updateStatus db orderId .routing).1 orderId .building).2]
            ++ [(updateStatus (updateStatus (updateStatus db orderId .routing).1 orderId
                  .building).1 orderId .submitted).2])
          esw _ hc3
        refine ⟨hs.1, fun hlt => ?_, fun hge => ?_⟩
        · obtain ⟨h1, h2, h3, h4⟩ := hs.2.1 hlt
          refine ⟨h1, h2, ?_⟩
          rw [h3]
          simp
        · obtain ⟨h1, h2, h3, h4⟩ := hs.2.2 hge
          refine ⟨h1, h2, h3, ?_⟩
          rw [h4]
          exact List.getLast?_concat _
      | ok result =>
        rw [hsw] at herr
        simp at herr


/-! ## C1: history replay -/

/-- C1 evaluation at the failing input (a successfully confirmed order): the
stored order is CONFIRMED with its transaction hash, but the persisted history
holds only the PENDING, ROUTING, BUILDING and SUBMITTED events — no terminal
event and no routing snapshot — so replaying it yields status SUBMITTED with
no execution-result fields, not the looked-up record. -/
theorem history_replay_misses_terminal_transitions :
    ((getOrder confirmedRunDb "o1").map Order.status = some .confirmed)
    ∧ ((getOrder confirmedRunDb "o1").map Order.txHash = some (some "tx"))
    ∧ (replayOrder samplePendingOrder (getOrderHistory confirmedRunDb "o1")).status
        = .submitted
    ∧ (replayOrder samplePendingOrder (getOrderHistory confirmedRunDb "o1")).txHash
        = none
    ∧ (eventStatuses (getOrderHistory confirmedRunDb "o1")).countP isTerminalStatus
        = 0
    ∧ (getOrderHistory confirmedRunDb "o1").countP (fun e => e.routing.isSome)
        = 0 := by
  norm_num [confirmedRunDb, runJob, executeOrder, executeSwapStage, buildingStage, catchBranch,
    updateStatus, updateOrderStatus, mapOrder, addStatusHistory, getOrder,
    getOrderHistory, bareUpdate, snapshotEvent, confirmedEvent, sampleDb,
    handleCreateOrder, schemaValid, effectiveSlippage, sampleRequest, emptyDb,
    emptyQueue, createOrder, addOrder, queueAdd, okOracle, swapFailOracle,
    rQuote, mQuote, sampleResult, bestQuote, slippageCheckFails, noFields,
    applyStatusUpdate, incrementRetryCount, failedEvent, eventStatuses,
    isTerminalStatus,
    replayOrder, applyEvent, samplePendingOrder]

/-! ## C2: status sequence -/

/-- C2 counterexample: when the first pipeline run fails at the swap and the
redelivered run confirms, the published status sequence revisits ROUTING after
SUBMITTED — across job-level retry re-runs the sequence is not a
prefix-consistent path (it steps backwards). -/
theorem status_sequence_regresses_across_retries :
    eventStatuses retryThenOkRun.2.1
      = [.routing, .routing, .building, .submitted,
         .routing, .routing, .building, .submitted, .confirmed]
    ∧ ¬ nonDecreasing (eventStatuses retryThenOkRun.2.1) := by
  have h : eventStatuses retryThenOkRun.2.1
      = [.routing, .routing, .building, .submitted,
         .routing, .routing, .building, .submitted, .confirmed] := by
    norm_num [retryThenOkRun, runJob, executeOrder, executeSwapStage, buildingStage, catchBranch,
    updateStatus, updateOrderStatus, mapOrder, addStatusHistory, getOrder,
    getOrderHistory, bareUpdate, snapshotEvent, confirmedEvent, sampleDb,
    handleCreateOrder, schemaValid, effectiveSlippage, sampleRequest, emptyDb,
    emptyQueue, createOrder, addOrder, queueAdd, okOracle, swapFailOracle,
    rQuote, mQuote, sampleResult, bestQuote, slippageCheckFails, noFields,
    applyStatusUpdate, incrementRetryCount, failedEvent, eventStatuses,
    isTerminalStatus]
  refine ⟨h, ?_⟩
  rw [h]
  unfold nonDecreasing
  norm_num [List.chain'_cons, List.chain'_singleton, statusRank]

/-- Witness for C2 amended theorem: a confirming run emits exactly one
terminal status. -/
theorem executeOrder_single_run_status_path_witness :
    (eventStatuses (executeOrder 3 okOracle sampleDb "o1").2.1).countP
      isTerminalStatus = 1 := by
  have hc : (executeOrder 3 okOracle sampleDb "o1").2.2 = RunOutcome.completed := by
    norm_num [runJob, executeOrder, executeSwapStage, buildingStage, catchBranch,
    updateStatus, updateOrderStatus, mapOrder, addStatusHistory, getOrder,
    getOrderHistory, bareUpdate, snapshotEvent, confirmedEvent, sampleDb,
    handleCreateOrder, schemaValid, effectiveSlippage, sampleRequest, emptyDb,
    emptyQueue, createOrder, addOrder, queueAdd, okOracle, swapFailOracle,
    rQuote, mQuote, sampleResult, bestQuote, slippageCheckFails, noFields,
    applyStatusUpdate, incrementRetryCount, failedEvent, eventStatuses,
    isTerminalStatus]
  exact ((executeOrder_single_run_status_path 3 okOracle sampleDb "o1").2.1 hc).1

/-! ## C3: retry exhaustion -/

/-- C3 counterexample: with the default bound of 3 and a persistently failing
swap, the order is already persisted FAILED (error stored verbatim) after the
third pipeline run — a fourth delivery never runs, contradicting the claimed
"maximum 3 retries beyond the first attempt, i.e. 4 total pipeline runs". -/
theorem order_failed_after_three_runs :
    alwaysFailRun.2.2 = 3
    ∧ (getOrder alwaysFailRun.1 "o1").map Order.status = some .failed
    ∧ (getOrder alwaysFailRun.1 "o1").map Order.error
        = some (some "Slippage tolerance exceeded")
    ∧ (getOrder alwaysFailRun.1 "o1").map Order.retryCount = some 3 := by
  norm_num [alwaysFailRun, runJob, executeOrder, executeSwapStage, buildingStage, catchBranch,
    updateStatus, updateOrderStatus, mapOrder, addStatusHistory, getOrder,
    getOrderHistory, bareUpdate, snapshotEvent, confirmedEvent, sampleDb,
    handleCreateOrder, schemaValid, effectiveSlippage, sampleRequest, emptyDb,
    emptyQueue, createOrder, addOrder, queueAdd, okOracle, swapFailOracle,
    rQuote, mQuote, sampleResult, bestQuote, slippageCheckFails, noFields,
    applyStatusUpdate, incrementRetryCount, failedEvent, eventStatuses,
    isTerminalStatus]

/-- Witness for C3 amended theorem: the first failing run of the sample order
increments the retry count to 1 < 3 and rethrows the swap error. -/
theorem executeOrder_catch_retry_policy_witness :
    (executeOrder 3 swapFailOracle sampleDb "o1").2.2
      = RunOutcome.rethrown "Slippage tolerance exceeded" := by
  have hord : getOrder sampleDb "o1" = some samplePendingOrder := by
    norm_num [getOrder, sampleDb, handleCreateOrder, schemaValid,
      effectiveSlippage, sampleRequest, emptyDb, emptyQueue, createOrder,
      addStatusHistory, bareUpdate, samplePendingOrder, addOrder, queueAdd]
  have herr : runErrorMessage swapFailOracle samplePendingOrder
      = some "Slippage tolerance exceeded" := by
    norm_num [runErrorMessage, swapFailOracle, bestQuote, rQuote, mQuote,
      slippageCheckFails, samplePendingOrder]
  have h := executeOrder_catch_retry_policy 3 swapFailOracle sampleDb "o1"
    samplePendingOrder "Slippage tolerance exceeded" hord herr
  exact (h.2.1 (by norm_num [samplePendingOrder])).1

/-! ## C4: route selection -/

/-- C4 counterexample: on quotes with equal outputAmount (Raydium listed
first), `getBestQuote`'s selection returns the Meteora quote, not the first
quote in input order — the claimed first-quote tie-break is false. -/
theorem bestQuote_tie_selects_meteora :
    tieRaydiumQuote.outputAmount = tieMeteoraQuote.outputAmount
    ∧ bestQuote tieRaydiumQuote tieMeteoraQuote = tieMeteoraQuote
    ∧ bestQuote tieRaydiumQuote tieMeteoraQuote ≠ tieRaydiumQuote := by
  decide

/-- C4 amended: route selection returns the quote with the strictly greatest
outputAmount; when the two quotes have equal outputAmount it returns the
second quote in input order, i.e. the Meteora quote. -/
theorem bestQuote_selects_greatest_output (r m : DexQuote) :
    (m.outputAmount < r.outputAmount → bestQuote r m = r)
    ∧ (r.outputAmount ≤ m.outputAmount → bestQuote r m = m)
    ∧ (bestQuote r m).outputAmount = max r.outputAmount m.outputAmount := by
  unfold bestQuote
  refine ⟨fun h => if_pos h, fun h => if_neg (not_lt.mpr h), ?_⟩
  by_cases h : m.outputAmount < r.outputAmount
  · rw [if_pos h, max_eq_left h.le]
  · rw [if_neg h, max_eq_right (not_lt.mp h)]

/-- Witness for C4's amended theorem at concrete quotes. -/
theorem bestQuote_selects_greatest_output_witness :
    bestQuote rQuote mQuote = mQuote := by
  have h := (bestQuote_selects_greatest_output rQuote mQuote).2.1
  exact h (by norm_num [rQuote, mQuote])

/-! ## C5: retry policy -/

/-- Call count of `retryFrom` is bounded by the remaining retries plus one. -/
theorem retryFrom_calls_le {E A : Type} (results : ℕ → Except E A) :
    ∀ remaining attempt, (retryFrom results attempt remaining).2 ≤ remaining + 1 := by
  intro remaining
  induction remaining with
  | zero => intro a; simp [retryFrom]
  | succ n ih =>
    intro a
    cases h : results a with
    | ok v => simp [retryFrom, h]
    | error e =>
      have hr := ih (a + 1)
      simp only [retryFrom, h]
      omega

/-- If every attempt in range fails, `retryFrom` makes all the calls and
propagates the final attempt's outcome. -/
theorem retryFrom_all_error {E A : Type} (results : ℕ → Except E A) :
    ∀ remaining attempt,
      (∀ i, attempt ≤ i → i ≤ attempt + remaining → (results i).isOk = false) →
      retryFrom results attempt remaining = (results (attempt + remaining), remaining + 1) := by
  intro remaining
  induction remaining with
  | zero => intro a _; simp [retryFrom]
  | succ n ih =>
    intro a h
    cases hr : results a with
    | ok v =>
      have := h a (Nat.le_refl a) (Nat.le_add_right a (n + 1))
      rw [hr] at this
      simp [Except.isOk, Except.toBool] at this
    | error e =>
      have hrest := ih (a + 1) (fun i h1 h2 => h i (by omega) (by omega))
      simp only [retryFrom, hr, hrest]
      have : a + 1 + n = a + (n + 1) := by omega
      rw [this]

/-- If the first success is at call index k within range, `retryFrom` returns
it after exactly k + 1 calls. -/
theorem retryFrom_first_ok {E A : Type} (results : ℕ → Except E A) :
    ∀ k remaining attempt a, k ≤ remaining → results (attempt + k) = .ok a →
      (∀ j, j < k → (results (attempt + j)).isOk = false) →
      retryFrom results attempt remaining = (.ok a, k + 1) := by
  intro k
  induction k with
  | zero =>
    intro rem att a _ hok _
    rw [Nat.add_zero] at hok
    cases rem with
    | zero => simp [retryFrom, hok]
    | succ n => simp [retryFrom, hok]
  | succ k ih =>
    intro rem att a hk hok hfail
    obtain ⟨n, rfl⟩ : ∃ n, rem = n + 1 := ⟨rem - 1, by omega⟩
    have h0 := hfail 0 (Nat.succ_pos k)
    rw [Nat.add_zero] at h0
    cases hr : results att with
    | ok v => rw [hr] at h0; simp [Except.isOk, Except.toBool] at h0
    | error e =>
      have hrest := ih n (att + 1) a (by omega)
        (by rw [show att + 1 + k = att + (k + 1) by omega]; exact hok)
        (fun j hj => by
          have := hfail (j + 1) (by omega)
          rwa [show att + (j + 1) = att + 1 + j by omega] at this)
      simp only [retryFrom, hr, hrest]

/-- C5: for every operation and every retry bound m, the operation is called
at most m + 1 times; if every attempt in range fails it is called exactly
m + 1 times and the result propagated is the final call's own outcome (the
last observed error, unchanged); if the first success is at call k ≤ m, that
result is returned after exactly k + 1 calls and no further attempts occur. -/
theorem retryWithExponentialBackoff_call_bound {E A : Type}
    (results : ℕ → Except E A) (maxRetries : ℕ) :
    (retryWithExponentialBackoff results maxRetries).2 ≤ maxRetries + 1
    ∧ ((∀ i, i ≤ maxRetries → (results i).isOk = false) →
        retryWithExponentialBackoff results maxRetries
          = (results maxRetries, maxRetries + 1))
    ∧ (∀ k a, k ≤ maxRetries → results k = .ok a →
        (∀ j, j < k → (results j).isOk = false) →
        retryWithExponentialBackoff results maxRetries = (.ok a, k + 1)) := by
  refine ⟨retryFrom_calls_le results maxRetries 0, fun h => ?_, fun k a hk hok hf => ?_⟩
  · have := retryFrom_all_error results maxRetries 0 (fun i _ h2 => h i (by omega))
    simpa [retryWithExponentialBackoff] using this
  · have := retryFrom_first_ok results k maxRetries 0 a hk (by simpa using hok)
      (fun j hj => by simpa using hf j hj)
    simpa [retryWithExponentialBackoff] using this

/-- Witness for C5: an operation that always fails, run with maxRetries = 2,
is called exactly 3 times and the third call's error propagates unchanged. -/
theorem retryWithExponentialBackoff_call_bound_witness :
    retryWithExponentialBackoff (fun i => (Except.error i : Except ℕ Unit)) 2
      = (Except.error 2, 3) := by
  have h := (retryWithExponentialBackoff_call_bound
    (fun i => (Except.error i : Except ℕ Unit)) 2).2.1 (fun i _ => rfl)
  simpa using h

/-! ## C6: queue admission dedup -/

/-- C6: `addOrder` keys the job by the order id itself; adding an id already
present is a no-op, adding preserves distinctness of job ids, and any sequence
of `addOrder` calls from the empty queue leaves at most one job per order id. -/
theorem addOrder_deduplicates (q : QueueState) (orderId : String) (ids : List String) :
    (orderId ∈ q.jobs → addOrder q orderId = q)
    ∧ (q.jobs.Nodup → (addOrder q orderId).jobs.Nodup)
    ∧ (List.foldl addOrder emptyQueue ids).jobs.Nodup
    ∧ (List.foldl addOrder emptyQueue ids).jobs.count orderId ≤ 1 := by
  have hstep : ∀ (p : QueueState) (i : String), p.jobs.Nodup → (addOrder p i).jobs.Nodup := by
    intro p i hp
    unfold addOrder queueAdd
    by_cases h : i ∈ p.jobs
    · rw [if_pos h]; exact hp
    · rw [if_neg h]
      simpa [List.nodup_append, hp] using h
  have hfold : ∀ (l : List String) (p : QueueState), p.jobs.Nodup →
      (List.foldl addOrder p l).jobs.Nodup := by
    intro l
    induction l with
    | nil => intro p hp; exact hp
    | cons x xs ih => intro p hp; exact ih _ (hstep p x hp)
  have hnd := hfold ids emptyQueue (by simp [emptyQueue])
  refine ⟨fun h => ?_, hstep q orderId, hnd, List.nodup_iff_count_le_one.mp hnd orderId⟩
  unfold addOrder queueAdd
  rw [if_pos h]

/-- Witness for C6: re-adding an id already queued is a no-op, and an enqueue
storm of the same id leaves at most one job. -/
theorem addOrder_deduplicates_witness :
    addOrder { jobs := ["a"] } "a" = { jobs := ["a"] }
    ∧ (List.foldl addOrder emptyQueue ["a", "a", "a"]).jobs.count "a" ≤ 1 :=
  ⟨(addOrder_deduplicates { jobs := ["a"] } "a" []).1 (by simp),
   (addOrder_deduplicates emptyQueue "a" ["a", "a", "a"]).2.2.2⟩

/-! ## C7: slippage validation branch -/

/-- C7: for every selected-quote output ≥ 0 and every order slippage in
[0, 1], the computed required minimum `output * (1 - slippage)` never exceeds
the output itself, so the `Slippage tolerance exceeded during quote` branch of
the ROUTING → BUILDING validation is unreachable. -/
theorem slippage_error_branch_unreachable (outputAmount slippage : ℚ)
    (hout : 0 ≤ outputAmount) (h0 : 0 ≤ slippage) (h1 : slippage ≤ 1) :
    slippageCheckFails outputAmount slippage = false := by
  unfold slippageCheckFails
  simp only [decide_eq_false_iff_not, not_lt]
  nlinarith [mul_nonneg hout h0]

/-- Witness for C7 at a concrete quote output and slippage. -/
theorem slippage_error_branch_unreachable_witness :
    slippageCheckFails 100 (1 / 100) = false :=
  slippage_error_branch_unreachable 100 (1 / 100) (by norm_num) (by norm_num) (by norm_num)

/-! ## C10: updateOrderStatus frame conditions -/

/-- C10: `updateOrderStatus` stores `applyStatusUpdate st u o` for the
matched row; the status is always overwritten, each optional field is
overwritten exactly when a value for it is supplied and kept otherwise, and a
once-written error message or execution-result field is never cleared. -/
theorem updateOrderStatus_frame (db : Db) (orderId : String) (st : OrderStatus)
    (u : StatusUpdateFields) (o : Order) (h : getOrder db orderId = some o) :
    getOrder (updateOrderStatus db orderId st u) orderId
      = some (applyStatusUpdate st u o)
    ∧ (applyStatusUpdate st u o).status = st
    ∧ (u.txHash = none → (applyStatusUpdate st u o).txHash = o.txHash)
    ∧ (∀ v, u.txHash = some v → (applyStatusUpdate st u o).txHash = some v)
    ∧ (u.executedPrice = none →
        (applyStatusUpdate st u o).executedPrice = o.executedPrice)
    ∧ (∀ v, u.executedPrice = some v →
        (applyStatusUpdate st u o).executedPrice = some v)
    ∧ (u.executedAmount = none →
        (applyStatusUpdate st u o).executedAmount = o.executedAmount)
    ∧ (∀ v, u.executedAmount = some v →
        (applyStatusUpdate st u o).executedAmount = some v)
    ∧ (u.dex = none → (applyStatusUpdate st u o).dex = o.dex)
    ∧ (∀ v, u.dex = some v → (applyStatusUpdate st u o).dex = some v)
    ∧ (u.error = none → (applyStatusUpdate st u o).error = o.error)
    ∧ (∀ v, u.error = some v → (applyStatusUpdate st u o).error = some v)
    ∧ (o.error ≠ none → (applyStatusUpdate st u o).error ≠ none)
    ∧ (o.txHash ≠ none → (applyStatusUpdate st u o).txHash ≠ none) := by
  refine ⟨getOrder_mapOrder_self db orderId _ o (fun r => rfl) h, rfl,
    fun hn => by simp [applyStatusUpdate, hn],
    fun v hv => by simp [applyStatusUpdate, hv],
    fun hn => by simp [applyStatusUpdate, hn],
    fun v hv => by simp [applyStatusUpdate, hv],
    fun hn => by simp [applyStatusUpdate, hn],
    fun v hv => by simp [applyStatusUpdate, hv],
    fun hn => by simp [applyStatusUpdate, hn],
    fun v hv => by simp [applyStatusUpdate, hv],
    fun hn => by simp [applyStatusUpdate, hn],
    fun v hv => by simp [applyStatusUpdate, hv],
    fun hset => ?_, fun hset => ?_⟩
  · cases he : u.error with
    | none => simpa [applyStatusUpdate, he] using hset
    | some v => simp [applyStatusUpdate, he]
  · cases he : u.txHash with
    | none => simpa [applyStatusUpdate, he] using hset
    | some v => simp [applyStatusUpdate, he]

/-- Witness for C10: a status-only update on an order with a stored error
keeps every optional field, including the error message. -/
theorem updateOrderStatus_frame_witness :
    getOrder (updateOrderStatus erroredDb "o1" .routing noFields) "o1"
      = some (applyStatusUpdate .routing noFields erroredOrder)
    ∧ (applyStatusUpdate .routing noFields erroredOrder).error ≠ none := by
  have h := updateOrderStatus_frame erroredDb "o1" .routing noFields erroredOrder
    (by simp [getOrder, erroredDb, erroredOrder, samplePendingOrder])
  exact ⟨h.1, h.2.2.2.2.2.2.2.2.2.2.2.2.1 (by simp [erroredOrder, samplePendingOrder])⟩

/-! ## C8: admission characterization -/

theorem schemaValid_iff (r : CreateOrderRequest) :
    schemaValid r = true ↔
      (0 ≤ r.amountIn ∧ ∀ s, r.slippage = some s → 0 ≤ s ∧ s ≤ 1) := by
  unfold schemaValid
  cases hsl : r.slippage with
  | none => simp
  | some s => simp [Bool.and_eq_true, decide_eq_true_iff, and_assoc]

/-- C8 counterexample: a market request with input amount 0 is accepted at
admission (the schema bound on amountIn is an inclusive minimum of 0), so
acceptance does not require a positive input amount. -/
theorem admission_accepts_zero_amount :
    (handleCreateOrder emptyDb emptyQueue zeroAmountRequest "z1").2.2
      = .accepted "z1"
    ∧ ¬ (0 < zeroAmountRequest.amountIn) := by
  norm_num [handleCreateOrder, schemaValid, zeroAmountRequest]

/-- C8 amended: the endpoint accepts a request iff its type is market, its
input amount is nonnegative, and its slippage, when supplied, lies in [0, 1];
a rejected request leaves the store and the queue unchanged (no order is
created or enqueued). -/
theorem admission_acceptance_characterization (db : Db) (q : QueueState)
    (r : CreateOrderRequest) (nid : String) :
    ((handleCreateOrder db q r nid).2.2 = .accepted nid ↔
      (r.type = .market ∧ 0 ≤ r.amountIn ∧ ∀ s, r.slippage = some s → 0 ≤ s ∧ s ≤ 1))
    ∧ (∀ msg, (handleCreateOrder db q r nid).2.2 = .rejected msg →
        (handleCreateOrder db q r nid).1 = db
        ∧ (handleCreateOrder db q r nid).2.1 = q) := by
  by_cases hs : schemaValid r = true
  · by_cases ht : r.type = OrderType.market
    · have hb : handleCreateOrder db q r nid = handleCreateOrder db q r nid := rfl
      unfold handleCreateOrder
      rw [if_neg (not_not_intro hs), if_neg (not_not_intro ht)]
      refine ⟨⟨fun _ => ⟨ht, (schemaValid_iff r).mp hs⟩, fun _ => rfl⟩, ?_⟩
      intro msg hmsg
      simp at hmsg
    · unfold handleCreateOrder
      rw [if_neg (not_not_intro hs), if_pos ht]
      refine ⟨⟨fun h => by simp at h, fun h => absurd h.1 ht⟩, fun msg _ => ⟨rfl, rfl⟩⟩
  · unfold handleCreateOrder
    rw [if_pos hs]
    refine ⟨⟨fun h => by simp at h, fun h => absurd ((schemaValid_iff r).mpr h.2) hs⟩,
      fun msg _ => ⟨rfl, rfl⟩⟩

/-- Witness for C8's amended theorem: the sample market request is accepted. -/
theorem admission_acceptance_characterization_witness :
    (handleCreateOrder emptyDb emptyQueue sampleRequest "o1").2.2
      = .accepted "o1" := by
  exact (admission_acceptance_characterization emptyDb emptyQueue sampleRequest "o1").1.mpr
    ⟨rfl, by norm_num [sampleRequest], fun s hs => by simp [sampleRequest] at hs⟩

/-! ## C9: stored slippage -/

/-- C9 counterexample: a request supplying slippage 0 is accepted but the
created order's slippage is the default 0.01, not the supplied 0: JavaScript
`request.body.slippage || 0.01` treats a supplied 0 as falsy. -/
theorem supplied_zero_slippage_defaulted :
    zeroSlippageRequest.slippage = some 0
    ∧ (getOrder (handleCreateOrder emptyDb emptyQueue zeroSlippageRequest "s1").1
        "s1").map Order.slippage = some (1 / 100)
    ∧ (1 / 100 : ℚ) ≠ 0 := by
  refine ⟨rfl, ?_, by norm_num⟩
  norm_num [handleCreateOrder, schemaValid, effectiveSlippage, addStatusHistory,
    createOrder, getOrder, emptyDb, emptyQueue, zeroSlippageRequest, bareUpdate]

/-- C9 amended: for an accepted request and a fresh order id, the created
order's slippage equals the supplied slippage whenever one is supplied and is
nonzero, and equals the default 0.01 when the request omits slippage or
supplies exactly 0. -/
theorem created_order_slippage (db : Db) (q : QueueState)
    (r : CreateOrderRequest) (nid : String)
    (haccept : (handleCreateOrder db q r nid).2.2 = .accepted nid)
    (hfresh : getOrder db nid = none) :
    (∀ s, r.slippage = some s → s ≠ 0 →
      (getOrder (handleCreateOrder db q r nid).1 nid).map Order.slippage = some s)
    ∧ ((r.slippage = none ∨ r.slippage = some 0) →
      (getOrder (handleCreateOrder db q r nid).1 nid).map Order.slippage
        = some (1 / 100)) := by
  unfold handleCreateOrder at haccept ⊢
  by_cases hs : schemaValid r = true
  · by_cases ht : r.type = OrderType.market
    · rw [if_neg (not_not_intro hs), if_neg (not_not_intro ht)]
      have hlook : ∀ ord : Order, ord.orderId = nid →
          getOrder (addStatusHistory (createOrder db ord) (bareUpdate nid .pending)) nid
            = some ord := by
        intro ord hid
        rw [getOrder_addStatusHistory]
        unfold getOrder at hfresh
        unfold getOrder createOrder
        rw [List.find?_append, hfresh]
        simp [hid]
      constructor
      · intro s hsl hnz
        rw [hlook _ rfl]
        simp [effectiveSlippage, hsl, hnz]
      · intro hcase
        rw [hlook _ rfl]
        rcases hcase with hnone | hzero
        · simp [effectiveSlippage, hnone]
        · simp [effectiveSlippage, hzero]
    · rw [if_neg (not_not_intro hs), if_pos ht] at haccept
      simp at haccept
  · rw [if_pos hs] at haccept
    simp at haccept

/-- Witness for C9's amended theorem: the sample request omits slippage and
the created order stores the default 0.01. -/
theorem created_order_slippage_witness :
    (getOrder (handleCreateOrder emptyDb emptyQueue sampleRequest "o1").1
      "o1").map Order.slippage = some (1 / 100) := by
  have h := created_order_slippage emptyDb emptyQueue sampleRequest "o1"
    (by norm_num [handleCreateOrder, schemaValid, sampleRequest]) rfl
  exact h.2 (Or.inl rfl)

end Eterna
